import Mathlib

/-!
Shallow embedding of the report lifecycle and expiry engine of the
Radarpro community-safety reporting application, together with proofs of
the specification's testable properties.

Timestamps are modelled as integers counting milliseconds (the JS
`Date.getTime()` value); `now` is passed explicitly to every function
that reads the clock in the source.
-/

namespace Radarpro

/-- Report categories, from `src/types` (`ReportCategory`). -/
inductive ReportCategory where
  | police_checkpoint
  | weather_alert
  | accident
  | general
  | road_hazard
  | traffic_jam
deriving DecidableEq, Repr

/-- Report status values (`active | resolved | expired`). -/
inductive ReportStatus where
  | active
  | resolved
  | expired
deriving DecidableEq, Repr

/-- The per-category expiry times in minutes
(`ReportExpiryService.EXPIRY_TIMES`). -/
def EXPIRY_TIMES : ReportCategory → Nat
  | .police_checkpoint => 5
  | .weather_alert => 2
  | .accident => 2
  | .general => 10
  | .road_hazard => 15
  | .traffic_jam => 15

/-- Embeds `ReportExpiryService.calculateExpiryTime`: the updated-at
timestamp plus the category expiry time converted to milliseconds
(`updatedDate.getTime() + expiryMinutes * 60 * 1000`). -/
def calculateExpiryTime (category : ReportCategory) (updatedAt : Int) : Int :=
  updatedAt + (EXPIRY_TIMES category : Int) * 60 * 1000

/-- Embeds `ReportExpiryService.isReportExpired`:
`new Date() >= expiryTime`, with the current time passed explicitly. -/
def isReportExpired (category : ReportCategory) (updatedAt now : Int) : Bool :=
  decide (calculateExpiryTime category updatedAt ≤ now)

/-- Embeds `ReportExpiryService.getTimeUntilExpiry`:
`Math.max(0, Math.floor(diffMs / (60 * 1000)))` where
`diffMs = expiryTime - now`.  JS `Math.floor` of the real quotient is
`Int.fdiv` (floor division). -/
def getTimeUntilExpiry (category : ReportCategory) (updatedAt now : Int) : Int :=
  max 0 (Int.fdiv (calculateExpiryTime category updatedAt - now) (60 * 1000))

/-- Embeds `ReportExpiryService.isReportAboutToExpire`:
`timeRemaining <= 1 && timeRemaining > 0`. -/
def isReportAboutToExpire (category : ReportCategory) (updatedAt now : Int) : Bool :=
  let timeRemaining := getTimeUntilExpiry category updatedAt now
  decide (timeRemaining ≤ 1) && decide (0 < timeRemaining)

end Radarpro

namespace Radarpro

/-- C1: if a report is expired its remaining time is 0; if its remaining
time is positive it is not expired; the remaining time is a non-negative
integer equal to `max 0 (floor ((expiryTime - now) / 60000))`. -/
theorem expiry_remaining_consistent (category : ReportCategory)
    (updatedAt now : Int) :
    (isReportExpired category updatedAt now = true →
      getTimeUntilExpiry category updatedAt now = 0) ∧
    (0 < getTimeUntilExpiry category updatedAt now →
      isReportExpired category updatedAt now = false) ∧
    0 ≤ getTimeUntilExpiry category updatedAt now ∧
    getTimeUntilExpiry category updatedAt now =
      max 0 (Int.fdiv (calculateExpiryTime category updatedAt - now) 60000) := by
  have hrw : getTimeUntilExpiry category updatedAt now =
      max 0 ((calculateExpiryTime category updatedAt - now) / 60000) := by
    simp only [getTimeUntilExpiry,
      Int.fdiv_eq_ediv _ (by norm_num : (0:Int) ≤ 60 * 1000)]
    norm_num
  refine ⟨?_, ?_, ?_, ?_⟩
  · intro h
    have hle : calculateExpiryTime category updatedAt ≤ now := by
      simpa [isReportExpired] using h
    rw [hrw]
    omega
  · intro h
    rw [hrw] at h
    simp only [isReportExpired, decide_eq_false_iff_not]
    omega
  · rw [hrw]; omega
  · rw [hrw]
    simp only [Int.fdiv_eq_ediv _ (by norm_num : (0:Int) ≤ 60000)]

/-- C1 witness: concrete evaluation at `police_checkpoint`,
`updatedAt = 0`, `now = 400000` (expired) and `now = 100000` (3 minutes
remaining). -/
theorem expiry_remaining_consistent_witness :
    isReportExpired .police_checkpoint 0 400000 = true ∧
    getTimeUntilExpiry .police_checkpoint 0 400000 = 0 ∧
    0 < getTimeUntilExpiry .police_checkpoint 0 100000 ∧
    isReportExpired .police_checkpoint 0 100000 = false := by
  refine ⟨by decide, ?_, by decide, ?_⟩
  · exact (expiry_remaining_consistent .police_checkpoint 0 400000).1 (by decide)
  · exact (expiry_remaining_consistent .police_checkpoint 0 100000).2.1 (by decide)

/-- C2: for every category and timestamp, the computed expiry time minus
the timestamp is exactly the category TTL (in minutes, converted to
milliseconds), and the TTL table is police_checkpoint=5, accident=2,
weather_alert=2, general=10, road_hazard=15, traffic_jam=15. -/
theorem expiry_time_exact_ttl (category : ReportCategory) (t : Int) :
    calculateExpiryTime category t - t = (EXPIRY_TIMES category : Int) * 60000 ∧
    EXPIRY_TIMES .police_checkpoint = 5 ∧
    EXPIRY_TIMES .accident = 2 ∧
    EXPIRY_TIMES .weather_alert = 2 ∧
    EXPIRY_TIMES .general = 10 ∧
    EXPIRY_TIMES .road_hazard = 15 ∧
    EXPIRY_TIMES .traffic_jam = 15 := by
  refine ⟨?_, rfl, rfl, rfl, rfl, rfl, rfl⟩
  simp only [calculateExpiryTime]
  ring

end Radarpro

namespace Radarpro

/-- Report rows, with the fields the expiry engine and the realtime relay
read (`src/types` `Report`): `id`, `user_id`, `category`, `status`,
`created_at`, `updated_at` (nullable in the sweep's fallback),
`report_timestamp`. -/
structure Report where
  id : String
  user_id : String
  category : ReportCategory
  status : ReportStatus
  created_at : Int
  updated_at : Option Int
  report_timestamp : Int
deriving DecidableEq, Repr

/-- The timestamp the sweep anchors expiry on:
`new Date(report.updated_at || report.created_at)`. -/
def reportAnchor (r : Report) : Int :=
  r.updated_at.getD r.created_at

/-- Ordering used by `SupabaseService.getReports`:
`.order('report_timestamp', { ascending: false })`. -/
def byTimestampDesc (a b : Report) : Prop :=
  b.report_timestamp ≤ a.report_timestamp

instance : DecidableRel byTimestampDesc := fun a b =>
  inferInstanceAs (Decidable (b.report_timestamp ≤ a.report_timestamp))

instance : IsTotal Report byTimestampDesc :=
  ⟨fun a b => le_total b.report_timestamp a.report_timestamp⟩

instance : IsTrans Report byTimestampDesc :=
  ⟨fun _ _ _ h1 h2 => le_trans h2 h1⟩

/-- Embeds `SupabaseService.getReports(limit = 50, offset = 0)`: every
stored report row (no status filter), ordered by `report_timestamp`
descending, windowed by `.range(offset, offset + limit - 1)`. -/
def getReports (store : List Report) (limit offset : Nat) : List Report :=
  ((List.insertionSort byTimestampDesc store).drop offset).take limit

/-- Embeds the id-collection loop of
`ReportExpiryService.checkExpiredReports`: filter the fetched rows to
`status === 'active'`, then collect the ids whose expiry time
(anchor + TTL) has been reached (`now >= expiryTime`). -/
def checkExpiredReportsIds (allReports : List Report) (now : Int) : List String :=
  let reports := allReports.filter (fun r => r.status == ReportStatus.active)
  (reports.filter (fun r => isReportExpired r.category (reportAnchor r) now)).map Report.id

/-- Embeds the mutation guard of `checkExpiredReports`:
`markReportsAsExpired` is called iff `expiredReportIds.length > 0`. -/
def sweepInvokesMutation (allReports : List Report) (now : Int) : Bool :=
  decide (0 < (checkExpiredReportsIds allReports now).length)

/-- One full sweep pass as `checkExpiredReports` performs it: it fetches
with `SupabaseService.getReports()` at the default `limit = 50`,
`offset = 0`, then collects expired active ids. -/
def checkExpiredSweep (store : List Report) (now : Int) : List String :=
  checkExpiredReportsIds (getReports store 50 0) now

/-- Membership characterization of the sweep's collected id set, shared by
the sweep theorems. -/
theorem mem_checkExpiredReportsIds (allReports : List Report) (now : Int)
    (i : String) :
    i ∈ checkExpiredReportsIds allReports now ↔
      ∃ r ∈ allReports, r.id = i ∧ r.status = ReportStatus.active ∧
        calculateExpiryTime r.category (reportAnchor r) ≤ now := by
  simp only [checkExpiredReportsIds, List.mem_map, List.mem_filter,
    isReportExpired, beq_iff_eq, decide_eq_true_eq]
  constructor
  · rintro ⟨r, ⟨⟨hmem, hact⟩, hexp⟩, hid⟩
    exact ⟨r, hmem, hid, hact, hexp⟩
  · rintro ⟨r, hmem, hid, hact, hexp⟩
    exact ⟨r, ⟨⟨hmem, hact⟩, hexp⟩, hid⟩

end Radarpro

namespace Radarpro

/-- C3: one sweep pass collects exactly the ids of the fetched reports
that are `active` and whose anchor timestamp plus the category TTL is at
or before `now`, and the bulk mark-expired mutation is invoked iff that
id list is non-empty. -/
theorem sweep_collects_exactly_and_mutates_iff_nonempty
    (allReports : List Report) (now : Int) :
    (∀ i, i ∈ checkExpiredReportsIds allReports now ↔
      ∃ r ∈ allReports, r.id = i ∧ r.status = ReportStatus.active ∧
        calculateExpiryTime r.category (reportAnchor r) ≤ now) ∧
    (sweepInvokesMutation allReports now = true ↔
      checkExpiredReportsIds allReports now ≠ []) := by
  refine ⟨fun i => mem_checkExpiredReportsIds allReports now i, ?_⟩
  simp [sweepInvokesMutation, List.length_pos]

end Radarpro

namespace Radarpro

/-- An expired report with the newest `report_timestamp` but the oldest
`updated_at`; `getReports` still returns it, and returns it first. -/
def storedExpiredReport : Report :=
  { id := "a", user_id := "u1", category := ReportCategory.general,
    status := ReportStatus.expired, created_at := 0, updated_at := some 0,
    report_timestamp := 100 }

/-- An active report with an older `report_timestamp` but the newest
`updated_at`; `getReports` returns it second. -/
def storedActiveReport : Report :=
  { id := "b", user_id := "u2", category := ReportCategory.general,
    status := ReportStatus.active, created_at := 0, updated_at := some 200,
    report_timestamp := 0 }

/-- C4 counterexample: on a store holding one `expired` and one `active`
report, `getReports` returns the expired report (no status filter) and
returns the rows ordered by `report_timestamp` descending, which here is
the opposite of `updated_at` descending. -/
theorem getReports_returns_nonactive_and_not_by_updatedAt :
    (getReports [storedActiveReport, storedExpiredReport] 50 0).map Report.status =
      [ReportStatus.expired, ReportStatus.active] ∧
    ¬ (∀ r ∈ getReports [storedActiveReport, storedExpiredReport] 50 0,
        r.status = ReportStatus.active) ∧
    ¬ List.Pairwise
        (fun a b : Report => b.updated_at.getD b.created_at ≤ a.updated_at.getD a.created_at)
        (getReports [storedActiveReport, storedExpiredReport] 50 0) := by
  refine ⟨?_, ?_, ?_⟩ <;> decide

/-- C4 amended: `getReports` applies no status filter — with a large
enough limit it returns a permutation of the whole store, expired and
resolved rows included — and its output is ordered by `report_timestamp`
(creation time) descending, not by `updated_at`; callers such as the
expiry sweeper filter `status === 'active'` client-side. -/
theorem getReports_all_statuses_ordered_by_report_timestamp
    (store : List Report) (limit offset : Nat) :
    List.Pairwise (fun a b : Report => b.report_timestamp ≤ a.report_timestamp)
      (getReports store limit offset) ∧
    (∀ r ∈ getReports store limit offset, r ∈ store) ∧
    (getReports store store.length 0).Perm store := by
  have hperm := List.perm_insertionSort byTimestampDesc store
  have hsorted := List.sorted_insertionSort byTimestampDesc store
  have hsub : List.Sublist (getReports store limit offset)
      (List.insertionSort byTimestampDesc store) :=
    (List.take_sublist _ _).trans (List.drop_sublist _ _)
  refine ⟨?_, ?_, ?_⟩
  · exact List.Pairwise.sublist hsub hsorted
  · intro r hr
    exact hperm.mem_iff.mp (hsub.mem hr)
  · have hlen : (List.insertionSort byTimestampDesc store).length = store.length :=
      hperm.length_eq
    simp only [getReports, List.drop_zero, ← hlen, List.take_length]
    exact hperm

/-- C9: every id a sweep pass collects belongs to a report among the first
50 rows of the store ordered by `report_timestamp` descending — the
sweep's `getReports()` call uses the default `limit = 50`, `offset = 0`,
so reports outside that first page are never examined and never marked
expired by the sweep, however stale they are. -/
theorem sweep_examines_only_first_fifty (store : List Report) (now : Int)
    (i : String) (h : i ∈ checkExpiredSweep store now) :
    ∃ r ∈ (List.insertionSort byTimestampDesc store).take 50,
      r.id = i ∧ r.status = ReportStatus.active ∧
        calculateExpiryTime r.category (reportAnchor r) ≤ now := by
  have hmem := (mem_checkExpiredReportsIds (getReports store 50 0) now i).mp h
  simpa [getReports, List.drop_zero] using hmem

/-- C9 witness: on a one-report store whose report expired long ago, the
sweep collects its id and the report indeed sits in the first page. -/
theorem sweep_examines_only_first_fifty_witness :
    ∃ r ∈ (List.insertionSort byTimestampDesc [storedActiveReport]).take 50,
      r.id = "b" ∧ r.status = ReportStatus.active ∧
        calculateExpiryTime r.category (reportAnchor r) ≤ 10000000 :=
  sweep_examines_only_first_fifty [storedActiveReport] 10000000 "b" (by decide)

end Radarpro

namespace Radarpro

/-- Notification frequency throttle values (`NotificationFrequency`). -/
inductive NotificationFrequency where
  | immediate
  | every_5min
  | every_15min
  | hourly
  | daily
deriving DecidableEq, Repr

/-- Quiet-hours configuration (`QuietHours`).  The source stores
`start_time`/`end_time` as `"HH:MM"` strings and splits them into hour
and minute with `split(':').map(Number)`; the split components are
modelled directly. -/
structure QuietHours where
  enabled : Bool
  start_hour : Nat
  start_min : Nat
  end_hour : Nat
  end_min : Nat
  days : List Nat
deriving DecidableEq, Repr

/-- Global notification settings (`GlobalNotificationSettings`), restricted
to the fields the coordinator's gating reads. -/
structure GlobalNotificationSettings where
  master_enabled : Bool
  quiet_hours : QuietHours
deriving DecidableEq, Repr

/-- Per-category notification settings (`NotificationSettings`), restricted
to the fields the coordinator's gating reads. -/
structure NotificationSettings where
  enabled : Bool
  frequency : NotificationFrequency
  show_system : Bool
deriving DecidableEq, Repr

/-- Preference record (`ComprehensiveNotificationPreferences`).  The six
named per-category blocks reached through `mapCategoryToPreferenceKey`
are modelled as one lookup function; `none` models a stored preference
object missing the category's block (the `if (!categorySettings)`
guard). -/
structure ComprehensiveNotificationPreferences where
  categorySettings : ReportCategory → Option NotificationSettings
  global_settings : GlobalNotificationSettings

/-- Wraparound window test of `NotificationService.isInQuietHours`: with
`startTime`/`endTime` in minutes since midnight, an overnight window
(`startTime > endTime`) matches `currentTime >= startTime ||
currentTime <= endTime`, a same-day window matches
`currentTime >= startTime && currentTime <= endTime`. -/
def quietWindowCovers (quietHours : QuietHours) (currentTime : Nat) : Bool :=
  let startTime := quietHours.start_hour * 60 + quietHours.start_min
  let endTime := quietHours.end_hour * 60 + quietHours.end_min
  if endTime < startTime then
    decide (startTime ≤ currentTime) || decide (currentTime ≤ endTime)
  else
    decide (startTime ≤ currentTime) && decide (currentTime ≤ endTime)

/-- Embeds `NotificationService.isInQuietHours`, with the current weekday
(`getDay()`, 0-6) and current minutes since midnight
(`getHours() * 60 + getMinutes()`) passed explicitly. -/
def isInQuietHours (quietHours : QuietHours) (currentDay currentTime : Nat) : Bool :=
  if !quietHours.enabled then false
  else if !(quietHours.days.contains currentDay) then false
  else quietWindowCovers quietHours currentTime

/-- Throttle interval in milliseconds for each non-immediate frequency
(the `switch` in `shouldSendNotification`). -/
def throttleIntervalMs : NotificationFrequency → Int
  | .immediate => 0
  | .every_5min => 5 * 60 * 1000
  | .every_15min => 15 * 60 * 1000
  | .hourly => 60 * 60 * 1000
  | .daily => 24 * 60 * 60 * 1000

/-- Embeds `NotificationService.shouldSendNotification`: `immediate`
always passes; otherwise the time since the per-category last-sent
timestamp (`lastNotificationTimes.get(category) || 0`) must reach the
frequency's interval. -/
def shouldSendNotification (category : ReportCategory)
    (frequency : NotificationFrequency)
    (lastNotificationTimes : ReportCategory → Option Int) (now : Int) : Bool :=
  if frequency = .immediate then true
  else
    let lastTime := (lastNotificationTimes category).getD 0
    let timeDiff := now - lastTime
    match frequency with
    | .immediate => true
    | .every_5min => decide (5 * 60 * 1000 ≤ timeDiff)
    | .every_15min => decide (15 * 60 * 1000 ≤ timeDiff)
    | .hourly => decide (60 * 60 * 1000 ≤ timeDiff)
    | .daily => decide (24 * 60 * 60 * 1000 ≤ timeDiff)

/-- Locally persisted notification record
(`NotificationStorage.storeNotification` call), restricted to the linkage
fields. -/
structure StoredNotification where
  report_id : String
  category : ReportCategory
deriving DecidableEq, Repr

/-- Coordinator-side mutable state: the persisted notification history and
the in-memory per-category `lastNotificationTimes` map. -/
structure NotificationState where
  history : List StoredNotification
  lastNotificationTimes : ReportCategory → Option Int

/-- Embeds the gating, persistence and dispatch sequence of
`NotificationService.sendComprehensiveNotification`.  The returned state
carries the (possibly extended) history and last-sent map; the returned
Bool records whether a system notification was dispatched
(`categorySettings.show_system` branch). -/
def sendComprehensiveNotification
    (preferences : ComprehensiveNotificationPreferences) (report : Report)
    (currentDay currentTime : Nat) (now : Int)
    (st : NotificationState) : NotificationState × Bool :=
  match preferences.categorySettings report.category with
  | none => (st, false)
  | some categorySettings =>
    if !preferences.global_settings.master_enabled || !categorySettings.enabled then
      (st, false)
    else if isInQuietHours preferences.global_settings.quiet_hours currentDay currentTime then
      (st, false)
    else if !shouldSendNotification report.category categorySettings.frequency
        st.lastNotificationTimes now then
      (st, false)
    else
      ({ history := { report_id := report.id, category := report.category } :: st.history,
         lastNotificationTimes := fun c =>
           if c = report.category then some now else st.lastNotificationTimes c },
       categorySettings.show_system)

end Radarpro

namespace Radarpro

/-- C5: when global quiet hours are enabled, the window covers the current
local time (wraparound semantics) and the current weekday is in the
configured day set, `sendComprehensiveNotification` dispatches no system
notification and leaves the notification state — history and last-sent
map alike — completely unchanged: the quiet-hours check short-circuits
before the persistence step. -/
theorem quiet_hours_short_circuit_no_dispatch_no_record
    (preferences : ComprehensiveNotificationPreferences) (report : Report)
    (currentDay currentTime : Nat) (now : Int) (st : NotificationState)
    (hen : preferences.global_settings.quiet_hours.enabled = true)
    (hday : preferences.global_settings.quiet_hours.days.contains currentDay = true)
    (hwin : quietWindowCovers preferences.global_settings.quiet_hours currentTime = true) :
    sendComprehensiveNotification preferences report currentDay currentTime now st
      = (st, false) := by
  have hq : isInQuietHours preferences.global_settings.quiet_hours
      currentDay currentTime = true := by
    simp only [isInQuietHours, hen, hday, hwin, Bool.not_true, Bool.false_eq_true,
      if_false]
  unfold sendComprehensiveNotification
  cases hcs : preferences.categorySettings report.category with
  | none => rfl
  | some categorySettings =>
    by_cases hmc : (!preferences.global_settings.master_enabled
        || !categorySettings.enabled) = true
    · simp [hmc]
    · simp [hmc, hq]

/-- C5 witness: overnight quiet hours 22:00 to 07:00 on every weekday; an
event at 23:00 on a Wednesday produces no dispatch and an unchanged
state, even with every other gate open. -/
theorem quiet_hours_short_circuit_no_dispatch_no_record_witness :
    sendComprehensiveNotification
      { categorySettings := fun _ =>
          some { enabled := true, frequency := .immediate, show_system := true },
        global_settings :=
          { master_enabled := true,
            quiet_hours :=
              { enabled := true, start_hour := 22, start_min := 0,
                end_hour := 7, end_min := 0, days := [0, 1, 2, 3, 4, 5, 6] } } }
      storedActiveReport 3 (23 * 60) 0
      { history := [], lastNotificationTimes := fun _ => none }
      = ({ history := [], lastNotificationTimes := fun _ => none }, false) :=
  quiet_hours_short_circuit_no_dispatch_no_record _ _ _ _ _ _
    (by decide) (by decide) (by decide)

/-- C8: `shouldSendNotification` always passes for `immediate`; for
`hourly` it rejects a last-sent timestamp 30 minutes old and accepts one
61 minutes old; for every throttled frequency it passes exactly when the
throttle interval has elapsed since the per-category last-sent time
(0 when never sent). -/
theorem frequency_throttle_behaviour (category : ReportCategory)
    (frequency : NotificationFrequency)
    (lastNotificationTimes : ReportCategory → Option Int) (now : Int) :
    shouldSendNotification category .immediate lastNotificationTimes now = true ∧
    shouldSendNotification category .hourly
      (fun _ => some (now - 30 * 60 * 1000)) now = false ∧
    shouldSendNotification category .hourly
      (fun _ => some (now - 61 * 60 * 1000)) now = true ∧
    (frequency ≠ .immediate →
      (shouldSendNotification category frequency lastNotificationTimes now = true ↔
        throttleIntervalMs frequency ≤ now - ((lastNotificationTimes category).getD 0))) := by
  refine ⟨rfl, ?_, ?_, ?_⟩
  · show decide ((60 * 60 * 1000 : Int) ≤ now - (now - 30 * 60 * 1000)) = false
    simp only [decide_eq_false_iff_not]
    omega
  · show decide ((60 * 60 * 1000 : Int) ≤ now - (now - 61 * 60 * 1000)) = true
    simp only [decide_eq_true_eq]
    omega
  · intro hne
    cases frequency with
    | immediate => exact absurd rfl hne
    | every_5min => simp [shouldSendNotification, throttleIntervalMs]
    | every_15min => simp [shouldSendNotification, throttleIntervalMs]
    | hourly => simp [shouldSendNotification, throttleIntervalMs]
    | daily => simp [shouldSendNotification, throttleIntervalMs]

/-- C8 witness: concrete evaluation at `accident`/`hourly` with an empty
last-sent map at `now = 0`. -/
theorem frequency_throttle_behaviour_witness :
    shouldSendNotification .accident .immediate (fun _ => none) 0 = true ∧
    (shouldSendNotification .accident .hourly (fun _ => none) 0 = true ↔
      throttleIntervalMs .hourly ≤
        0 - (((fun _ : ReportCategory => (none : Option Int)) ReportCategory.accident).getD 0)) :=
  ⟨(frequency_throttle_behaviour .accident .hourly (fun _ => none) 0).1,
   (frequency_throttle_behaviour .accident .hourly (fun _ => none) 0).2.2.2
     (by decide)⟩

end Radarpro

namespace Radarpro

/-- Observable effects of one INSERT or UPDATE branch of the
`useRealtimeReports` subscription callback: whether the local-state
callback (`onNewReport` / `onUpdateReport`) ran, whether
`sendComprehensiveNotification` was reached, and whether the in-app
notification banner was set. -/
structure RelayEventOutcome where
  localCallbackInvoked : Bool
  comprehensiveNotificationReached : Bool
  inAppNotificationShown : Bool
deriving DecidableEq, Repr

/-- Embeds the INSERT branch of the `useRealtimeReports` handler:
`fetched` is the `getReportById` hydration result (`none` on error or
missing row, on which the handler returns early).  When
`currentUserId && newReport.user_id === currentUserId`, the handler calls
`onNewReport` and returns before the notification pipeline; otherwise it
calls `onNewReport`, reaches `sendComprehensiveNotification` when
`enableComprehensiveNotifications` is set, and shows the in-app banner
when `showNotifications` is set.  The UPDATE branch is line-for-line
identical apart from using `onUpdateReport`, so both branches share this
embedding, selected by the callback argument in the theorems. -/
def handleRealtimeEvent (currentUserId : Option String)
    (enableComprehensiveNotifications showNotifications : Bool)
    (fetched : Option Report) : RelayEventOutcome :=
  match fetched with
  | none => { localCallbackInvoked := false,
              comprehensiveNotificationReached := false,
              inAppNotificationShown := false }
  | some newReport =>
    match currentUserId with
    | some uid =>
      if newReport.user_id = uid then
        { localCallbackInvoked := true,
          comprehensiveNotificationReached := false,
          inAppNotificationShown := false }
      else
        { localCallbackInvoked := true,
          comprehensiveNotificationReached := enableComprehensiveNotifications,
          inAppNotificationShown := showNotifications }
    | none =>
      { localCallbackInvoked := true,
        comprehensiveNotificationReached := enableComprehensiveNotifications,
        inAppNotificationShown := showNotifications }

/-- Embeds `useRealtimeReportsState.handleNewReport`: skip when the id is
already present (`prev.some(r => r.id === newReport.id)`), otherwise
prepend (`[newReport, ...prev]`). -/
def handleNewReport (newReport : Report) (prev : List Report) : List Report :=
  if prev.any (fun r => r.id == newReport.id) then prev
  else newReport :: prev

end Radarpro

namespace Radarpro

/-- C6: an INSERT or UPDATE event whose hydrated report's author equals
the supplied current user id invokes the local-state callback but never
reaches the comprehensive-notification path and shows no in-app
notification. -/
theorem self_event_updates_state_but_suppresses_notifications
    (uid : String) (r : Report)
    (enableComprehensiveNotifications showNotifications : Bool)
    (hauthor : r.user_id = uid) :
    handleRealtimeEvent (some uid) enableComprehensiveNotifications
        showNotifications (some r) =
      { localCallbackInvoked := true,
        comprehensiveNotificationReached := false,
        inAppNotificationShown := false } := by
  simp [handleRealtimeEvent, hauthor]

/-- C6 witness: a report authored by `"u1"` arriving while the current
user is `"u1"`, with both notification features enabled. -/
theorem self_event_updates_state_but_suppresses_notifications_witness :
    handleRealtimeEvent (some "u1") true true (some storedExpiredReport) =
      { localCallbackInvoked := true,
        comprehensiveNotificationReached := false,
        inAppNotificationShown := false } :=
  self_event_updates_state_but_suppresses_notifications "u1"
    storedExpiredReport true true (by decide)

/-- C10: when no current user id is supplied, the self-suppression guard
is skipped: an event for the device's own report still reaches the
comprehensive-notification path and shows the in-app banner, in addition
to updating local view state. -/
theorem missing_user_id_skips_self_suppression :
    handleRealtimeEvent none true true (some storedExpiredReport) =
      { localCallbackInvoked := true,
        comprehensiveNotificationReached := true,
        inAppNotificationShown := true } ∧
    handleRealtimeEvent (some "u1") true true (some storedExpiredReport) ≠
      handleRealtimeEvent none true true (some storedExpiredReport) := by
  decide

/-- C7: the relay's new-report handler leaves the view unchanged when the
incoming id is already present, prepends otherwise, preserves the
no-duplicate-ids invariant, and a second insert carrying the same id is a
no-op, so feeding two inserts of one id to a view not containing it
yields exactly one entry for that id. -/
theorem new_report_dedup (prev : List Report) (newReport : Report) :
    (prev.any (fun r => r.id == newReport.id) = true →
      handleNewReport newReport prev = prev) ∧
    (prev.any (fun r => r.id == newReport.id) = false →
      handleNewReport newReport prev = newReport :: prev) ∧
    ((prev.map Report.id).Nodup →
      ((handleNewReport newReport prev).map Report.id).Nodup) ∧
    (∀ r2 : Report, r2.id = newReport.id →
      handleNewReport r2 (handleNewReport newReport prev) =
        handleNewReport newReport prev) ∧
    (prev.any (fun r => r.id == newReport.id) = false →
      ((handleNewReport newReport (handleNewReport newReport prev)).map
          Report.id).count newReport.id = 1) := by
  have hnotmem : prev.any (fun r => r.id == newReport.id) = false →
      newReport.id ∉ prev.map Report.id := by
    intro hfalse hmem
    rcases List.mem_map.mp hmem with ⟨r, hr, hid⟩
    have := List.any_eq_false.mp hfalse r hr
    simp [hid] at this
  refine ⟨?_, ?_, ?_, ?_, ?_⟩
  · intro htrue
    simp [handleNewReport, htrue]
  · intro hfalse
    simp [handleNewReport, hfalse]
  · intro hnd
    by_cases hmem : prev.any (fun r => r.id == newReport.id) = true
    · simpa [handleNewReport, hmem] using hnd
    · rw [Bool.not_eq_true] at hmem
      simp only [handleNewReport, hmem, if_false, List.map_cons]
      exact List.nodup_cons.mpr ⟨hnotmem hmem, hnd⟩
  · intro r2 hid2
    by_cases hmem : prev.any (fun r => r.id == newReport.id) = true
    · simp [handleNewReport, hmem, hid2]
    · rw [Bool.not_eq_true] at hmem
      simp [handleNewReport, hmem, hid2]
  · intro hfalse
    have h1 : handleNewReport newReport prev = newReport :: prev := by
      simp [handleNewReport, hfalse]
    have h2 : handleNewReport newReport (newReport :: prev) = newReport :: prev := by
      simp [handleNewReport]
    rw [h1, h2, List.map_cons, List.count_cons_self]
    have := List.count_eq_zero.mpr (hnotmem hfalse)
    omega

/-- C7 witness: concrete double insert of one report into a one-element
view that does not contain its id. -/
theorem new_report_dedup_witness :
    handleNewReport storedExpiredReport [storedActiveReport] =
      [storedExpiredReport, storedActiveReport] ∧
    handleNewReport storedExpiredReport
        (handleNewReport storedExpiredReport [storedActiveReport]) =
      handleNewReport storedExpiredReport [storedActiveReport] ∧
    (([storedActiveReport].map Report.id).Nodup →
      ((handleNewReport storedExpiredReport [storedActiveReport]).map
          Report.id).Nodup) ∧
    ((handleNewReport storedExpiredReport
        (handleNewReport storedExpiredReport [storedActiveReport])).map
          Report.id).count storedExpiredReport.id = 1 :=
  ⟨(new_report_dedup [storedActiveReport] storedExpiredReport).2.1 (by decide),
   (new_report_dedup [storedActiveReport] storedExpiredReport).2.2.2.1
     storedExpiredReport rfl,
   (new_report_dedup [storedActiveReport] storedExpiredReport).2.2.1,
   (new_report_dedup [storedActiveReport] storedExpiredReport).2.2.2.2
     (by decide)⟩

end Radarpro
